import Mathlib

/-!
Verification of the greeting engine of dirkste/HelloWorld.

The Lean definitions below are a shallow embedding of the Python class
`GreetingManager` (src/src/greeting_manager.py) together with the slice of
`ConfigManager` (src/src/config_manager.py) it consumes.  Python strings are
Lean `String`s, Python dicts keyed by strings are association lists in
insertion order, wall-clock readings are an abstract `Nat` tick passed to each
operation (the local hour is the tick modulo 24), and `datetime` timestamps
are `Nat`.  `dict.copy()` is a shallow copy in Python, so the statistics
dictionary's `language_usage` entry is modelled as an object reference into a
small heap of allocated dictionaries: copying the statistics dictionary copies
the reference, not the referenced dictionary.

The greeting-history feature (`get_greeting_history`, `clear_history` and the
per-call history append) is exercised by main.py and by
tests/test_greeting_manager.py but its implementation is absent from the
`GreetingManager` class under src; those parts are modelled from the
specification and are marked as such.
-/

namespace HelloWorld

/-- Python `str.strip()`: removes leading and trailing whitespace (the
configured and user-entered messages only ever contain the ASCII whitespace
characters covered by `Char.isWhitespace`). -/
def pyStrip (s : String) : String :=
  ⟨((s.data.dropWhile Char.isWhitespace).reverse.dropWhile Char.isWhitespace).reverse⟩

/-- ASCII lowercasing of one character, as Python `str.lower()` acts on the
language codes in play. -/
def pyToLower (s : String) : String :=
  ⟨s.data.map Char.toLower⟩

/-- Substitute every occurrence of the `{name}` placeholder in a character
list by the greeted name. -/
def substName (n : List Char) : List Char → List Char
  | '\x7b' :: 'n' :: 'a' :: 'm' :: 'e' :: '\x7d' :: rest => n ++ substName n rest
  | c :: rest => c :: substName n rest
  | [] => []

/-- Lexicographic at-most comparison of two strings by character code, used
to state sortedness of language-code lists. -/
def strLeb (a b : String) : Bool :=
  go a.data b.data
where
  go : List Char → List Char → Bool
    | [], _ => true
    | _ :: _, [] => false
    | c :: cs, d :: ds => if c = d then go cs ds else decide (c.toNat < d.toNat)

/-- Whether a list of strings is in non-decreasing lexicographic order. -/
def sortedStringsB : List String → Bool
  | [] => true
  | [_] => true
  | a :: b :: rest => strLeb a b && sortedStringsB (b :: rest)

/-- Lookup in a Python dict keyed by strings, represented as an association
list in insertion order.  Returns the binding of the key, if any. -/
def dictLookup {α : Type} (d : List (String × α)) (k : String) : Option α :=
  match d with
  | [] => none
  | (a, b) :: rest => if a = k then some b else dictLookup rest k

/-- Keys of a Python dict in insertion order (`dict.keys()`). -/
def dictKeys {α : Type} (d : List (String × α)) : List String :=
  d.map Prod.fst

/-- Python `template.format(name=name)`: substitutes the `{name}`
placeholder (the only placeholder the configured templates contain). -/
def pyFormatName (template n : String) : String :=
  ⟨substName n.data template.data⟩

/-- The slice of the configuration document the greeting engine reads, as an
already-parsed typed record.  Each `Option`/list field models the presence or
absence of the corresponding dotted key; `ConfigManager.get(key, default)`
returns the stored value when the key is present and the default otherwise,
which the `Config.get*` functions below reproduce. -/
structure Config where
  /-- Value at dotted key `greetings.default_name`, when present. -/
  default_name : Option String
  /-- Mapping at dotted key `greetings.languages` (code to template),
  in the document's insertion order; missing key is the empty mapping. -/
  languages : List (String × String)
  /-- Value at dotted key `greetings.time_based.enabled`, when present. -/
  time_based_enabled : Option Bool
  /-- Template entries under `greetings.time_based` (keys `morning`,
  `afternoon`, `evening`, `night`), in insertion order. -/
  time_based_templates : List (String × String)
  deriving DecidableEq

/-- `self.config.get('greetings.default_name', 'World')`. -/
def Config.getDefaultName (c : Config) : String :=
  c.default_name.getD "World"

/-- `self.config.get('greetings.languages', {})`. -/
def Config.getLanguages (c : Config) : List (String × String) :=
  c.languages

/-- `self.config.get('greetings.time_based.enabled', True)`. -/
def Config.getTimeBasedEnabled (c : Config) : Bool :=
  c.time_based_enabled.getD true

/-- `self.config.get(f'greetings.time_based.{time_key}', 'Hello, {name}!')`. -/
def Config.getTimeTemplate (c : Config) (time_key : String) : String :=
  (dictLookup c.time_based_templates time_key).getD "Hello, \x7bname\x7d!"

/-- The engine's statistics dictionary `self.stats`.  The `language_usage`
field holds the object id of the language-usage dictionary (a reference into
the heap below), matching the fact that the Python dictionary stores a
reference to a separately allocated dict object. -/
structure Stats where
  total_greetings : Nat
  standard_greetings : Nat
  multilang_greetings : Nat
  time_based_greetings : Nat
  custom_messages : Nat
  /-- Object id of the `language_usage` dict (reference, not contents). -/
  language_usage : Nat
  /-- Timestamp captured at construction (`datetime.now().isoformat()`). -/
  session_start : Nat
  deriving DecidableEq

/-- One entry of the greeting history, with the field names used by
tests/test_greeting_manager.py (`timestamp`, `type`, `name`, `greeting`). -/
structure HistoryEntry where
  timestamp : Nat
  type : String
  name : String
  greeting : String
  deriving DecidableEq

/-- Heap of allocated string-to-count dictionaries; a `Nat` object id indexes
into the list. -/
abbrev Heap : Type := List (List (String × Nat))

/-- Dereference an object id in the heap. -/
def heapGet (h : Heap) (ref : Nat) : List (String × Nat) :=
  List.getD h ref []

/-- Overwrite the dictionary at an object id. -/
def heapSet (h : Heap) (ref : Nat) (d : List (String × Nat)) : Heap :=
  List.set h ref d

/-- State of one `GreetingManager` instance: the injected configuration, the
statistics record, the heap holding the `language_usage` dict object, and the
greeting history (the history list itself is modelled from the spec, see
`appendHistory`). -/
structure GreetingManager where
  config : Config
  stats : Stats
  heap : Heap
  history : List HistoryEntry
  deriving DecidableEq

/-- `GreetingManager.__init__`: all counters start at zero, `session_start`
is the construction-time timestamp, and a fresh empty `language_usage` dict is
allocated (object id 0).  The history starts empty (spec §3: created at
construction). -/
def GreetingManager.init (config : Config) (now : Nat) : GreetingManager :=
  { config := config
  , stats :=
    { total_greetings := 0
    , standard_greetings := 0
    , multilang_greetings := 0
    , time_based_greetings := 0
    , custom_messages := 0
    , language_usage := 0
    , session_start := now }
  , heap := [[]]
  , history := [] }

/-- `GreetingManager._update_stats(greeting_type)`: always increments
`total_greetings`; when `greeting_type` is a key of the stats dict it is also
incremented.  Call sites only ever pass the four per-kind counter keys, which
are the keys matched here (the remaining keys of the dict,
`total_greetings`, `language_usage` and `session_start`, are never passed). -/
def update_stats (s : Stats) (greeting_type : String) : Stats :=
  let s := { s with total_greetings := s.total_greetings + 1 }
  if greeting_type = "standard_greetings" then
    { s with standard_greetings := s.standard_greetings + 1 }
  else if greeting_type = "multilang_greetings" then
    { s with multilang_greetings := s.multilang_greetings + 1 }
  else if greeting_type = "time_based_greetings" then
    { s with time_based_greetings := s.time_based_greetings + 1 }
  else if greeting_type = "custom_messages" then
    { s with custom_messages := s.custom_messages + 1 }
  else
    s

/-- Effect of `GreetingManager._update_language_stats(language)` on the
`language_usage` dict contents: insert the key with count 0 if absent (Python
appends new keys in insertion order), then add one to its count. -/
def bumpLang (d : List (String × Nat)) (language : String) : List (String × Nat) :=
  match dictLookup d language with
  | none => d ++ [(language, 1)]
  | some _ => d.map fun p => if p.1 = language then (p.1, p.2 + 1) else p

/-- `GreetingManager._update_language_stats(language)`: mutates the dict
object referenced by `stats['language_usage']` in place. -/
def update_language_stats (m : GreetingManager) (language : String) : GreetingManager :=
  let d := bumpLang (heapGet m.heap m.stats.language_usage) language
  { m with heap := heapSet m.heap m.stats.language_usage d }

/-- The `if not name: name = self.config.get('greetings.default_name',
'World')` pattern shared by the greeting methods: `None` and the empty string
are falsy, any other string is kept. -/
def resolveName (c : Config) (name : Option String) : String :=
  match name with
  | none => c.getDefaultName
  | some n => if n = "" then c.getDefaultName else n

/-- Modelled from the spec: the per-call history append is absent from the
`GreetingManager` class under src (only main.py and
tests/test_greeting_manager.py use the history).  Per spec §3, every
successful greeting-producing call appends one entry
`{timestamp, kind, name, rendered_text}` at the end, in call order. -/
def appendHistory (m : GreetingManager) (now : Nat) (kind n greeting : String) :
    GreetingManager :=
  { m with history :=
      m.history ++ [{ timestamp := now, type := kind, name := n, greeting := greeting }] }

/-- `GreetingManager.get_standard_greeting(name)`: resolves the default name,
renders `f"Hello, {name}!"`, updates the standard counters and appends a
history entry of kind `standard`. -/
def get_standard_greeting (m : GreetingManager) (now : Nat) (name : Option String) :
    String × GreetingManager :=
  let n := resolveName m.config name
  let greeting := "Hello, " ++ n ++ "!"
  let m1 := { m with stats := update_stats m.stats "standard_greetings" }
  let m2 := appendHistory m1 now "standard" n greeting
  (greeting, m2)

/-- The domain error raised by `get_multilang_greeting` for an unsupported
language (`ValueError` in the source), carrying the requested code and the
available codes exactly as the source message interpolates them:
`', '.join(languages.keys())`, i.e. the mapping's keys in insertion order. -/
structure UnsupportedLanguage where
  language : String
  available : List String
  deriving DecidableEq

/-- `GreetingManager.get_multilang_greeting(name, language)`: resolves the
default name, looks the language code up verbatim among the keys of
`greetings.languages`, raises `UnsupportedLanguage` without mutating anything
when absent, and otherwise renders the template, updates the multilang
counters and the language-usage dict, and appends a history entry of kind
`multilang` (the append is modelled from the spec, see `appendHistory`). -/
def get_multilang_greeting (m : GreetingManager) (now : Nat) (name : Option String)
    (language : String) : Except UnsupportedLanguage (String × GreetingManager) :=
  let n := resolveName m.config name
  let languages := m.config.getLanguages
  match dictLookup languages language with
  | none => .error { language := language, available := dictKeys languages }
  | some template =>
    let greeting := pyFormatName template n
    let m1 := { m with stats := update_stats m.stats "multilang_greetings" }
    let m2 := update_language_stats m1 language
    let m3 := appendHistory m2 now "multilang" n greeting
    .ok (greeting, m3)

/-- Calling `get_multilang_greeting` without a language argument uses the
declared default parameter value `language: str = 'en'`. -/
def get_multilang_greeting_default (m : GreetingManager) (now : Nat)
    (name : Option String) : Except UnsupportedLanguage (String × GreetingManager) :=
  get_multilang_greeting m now name "en"

/-- The time-of-day chain of `get_time_based_greeting`: half-open hour
intervals mapped to the template key. -/
def time_key_of_hour (h : Nat) : String :=
  if 5 ≤ h ∧ h < 12 then "morning"
  else if 12 ≤ h ∧ h < 17 then "afternoon"
  else if 17 ≤ h ∧ h < 22 then "evening"
  else "night"

/-- `GreetingManager.get_time_based_greeting(name)`: resolves the default
name; when `greetings.time_based.enabled` is falsy it returns
`self.get_standard_greeting(name)` with the already-resolved name (standard
counters and history kind); otherwise it derives the time key from the
current local hour, renders the configured template (default
`'Hello, {name}!'`), updates the time-based counters and appends a history
entry of kind `time_based`. -/
def get_time_based_greeting (m : GreetingManager) (now : Nat) (name : Option String) :
    String × GreetingManager :=
  let n := resolveName m.config name
  if m.config.getTimeBasedEnabled = false then
    get_standard_greeting m now (some n)
  else
    let current_hour := now % 24
    let time_key := time_key_of_hour current_hour
    let template := m.config.getTimeTemplate time_key
    let greeting := pyFormatName template n
    let m1 := { m with stats := update_stats m.stats "time_based_greetings" }
    let m2 := appendHistory m1 now "time_based" n greeting
    (greeting, m2)

/-- `GreetingManager.process_custom_message(message)`: decorates the stripped
message with the sparkle marker, updates the custom counters and appends a
history entry of kind `custom` carrying the decorated text (the spec specifies
no greeted name for custom messages, so the entry's name is empty). -/
def process_custom_message (m : GreetingManager) (now : Nat) (message : String) :
    String × GreetingManager :=
  let processed := "✨ " ++ pyStrip message ++ " ✨"
  let m1 := { m with stats := update_stats m.stats "custom_messages" }
  let m2 := appendHistory m1 now "custom" "" processed
  (processed, m2)

/-- `GreetingManager.get_available_languages()`: the keys of
`greetings.languages` in mapping order. -/
def get_available_languages (m : GreetingManager) : List String :=
  dictKeys m.config.getLanguages

/-- The dictionary returned by `get_statistics`: `self.stats.copy()` plus the
derived `session_duration_minutes`.  `dict.copy()` is shallow, so the
`language_usage` entry of the copy is the same object reference as the
engine's (the `Nat` object id); the scalar counters are copied by value.
The duration is modelled in abstract ticks (the source divides seconds by 60
and rounds; the unit conversion is irrelevant to the claims). -/
structure StatsSnapshot where
  total_greetings : Nat
  standard_greetings : Nat
  multilang_greetings : Nat
  time_based_greetings : Nat
  custom_messages : Nat
  /-- Shared object id: the shallow copy keeps the reference. -/
  language_usage : Nat
  session_start : Nat
  session_duration_minutes : Nat
  deriving DecidableEq

/-- `GreetingManager.get_statistics()`: copies the stats dict (shallowly) and
adds `session_duration_minutes` computed from the current time; mutates
nothing. -/
def get_statistics (m : GreetingManager) (now : Nat) : StatsSnapshot :=
  { total_greetings := m.stats.total_greetings
  , standard_greetings := m.stats.standard_greetings
  , multilang_greetings := m.stats.multilang_greetings
  , time_based_greetings := m.stats.time_based_greetings
  , custom_messages := m.stats.custom_messages
  , language_usage := m.stats.language_usage
  , session_start := m.stats.session_start
  , session_duration_minutes := now - m.stats.session_start }

/-- Reading the `language_usage` entry of a previously returned statistics
snapshot while the engine is in state `m`: the entry is a reference, so the
read dereferences the object in the engine's current heap. -/
def StatsSnapshot.read_language_usage (snap : StatsSnapshot) (m : GreetingManager) :
    List (String × Nat) :=
  heapGet m.heap snap.language_usage

/-- Modelled from the spec: `get_greeting_history` is called by main.py and
asserted on by tests/test_greeting_manager.py but absent from the
`GreetingManager` class under src.  Per the spec it returns the current
ordered history, empty initially. -/
def get_greeting_history (m : GreetingManager) : List HistoryEntry :=
  m.history

/-- Modelled from the spec: `clear_history` is called by main.py and
tests/test_greeting_manager.py but absent from the `GreetingManager` class
under src.  Per the spec it empties the history unconditionally and does not
affect statistics. -/
def clear_history (m : GreetingManager) : GreetingManager :=
  { m with history := [] }

/-- One public engine call together with the clock reading and arguments it
is made with. -/
inductive Op where
  | standard (now : Nat) (name : Option String)
  | multilang (now : Nat) (name : Option String) (language : String)
  | multilangDefault (now : Nat) (name : Option String)
  | timeBased (now : Nat) (name : Option String)
  | custom (now : Nat) (message : String)
  | statsQuery (now : Nat)
  | historyQuery
  | clearHistory
  | languagesQuery
  deriving DecidableEq

/-- State transition of one public call: queries leave the state unchanged, a
failed multilang call (raised `ValueError`) leaves the state unchanged, every
other call returns the updated state. -/
def step (m : GreetingManager) (op : Op) : GreetingManager :=
  match op with
  | .standard now name => (get_standard_greeting m now name).2
  | .multilang now name language =>
    match get_multilang_greeting m now name language with
    | .ok (_, m2) => m2
    | .error _ => m
  | .multilangDefault now name =>
    match get_multilang_greeting_default m now name with
    | .ok (_, m2) => m2
    | .error _ => m
  | .timeBased now name => (get_time_based_greeting m now name).2
  | .custom now message => (process_custom_message m now message).2
  | .statsQuery _ => m
  | .historyQuery => m
  | .clearHistory => clear_history m
  | .languagesQuery => m

/-- Run a sequence of public calls from a state. -/
def run (m : GreetingManager) (ops : List Op) : GreetingManager :=
  ops.foldl step m

/-- The statistics invariant of spec §3. -/
def statsInv (s : Stats) : Prop :=
  s.total_greetings =
    s.standard_greetings + s.multilang_greetings + s.time_based_greetings +
      s.custom_messages

/-- Exact increment bookkeeping: `new` is `old` with `total_greetings` one
higher and exactly the per-kind counter named by `k` one higher. -/
def bumps (old new : Stats) (k : String) : Prop :=
  new.total_greetings = old.total_greetings + 1 ∧
  new.standard_greetings =
    old.standard_greetings + (if k = "standard_greetings" then 1 else 0) ∧
  new.multilang_greetings =
    old.multilang_greetings + (if k = "multilang_greetings" then 1 else 0) ∧
  new.time_based_greetings =
    old.time_based_greetings + (if k = "time_based_greetings" then 1 else 0) ∧
  new.custom_messages =
    old.custom_messages + (if k = "custom_messages" then 1 else 0)

/-- A configuration whose `greetings.languages` mapping lists its keys in an
order that is not sorted (`fr` before `en`). -/
def cfgUnsorted : Config :=
  { default_name := some "World"
  , languages := [("fr", "Bonjour, \x7bname\x7d!"), ("en", "Hello, \x7bname\x7d!")]
  , time_based_enabled := none
  , time_based_templates := [] }

/-- Engine freshly constructed over `cfgUnsorted`. -/
def mUnsorted : GreetingManager := GreetingManager.init cfgUnsorted 0

/-- A configuration whose `greetings.languages` mapping holds exactly the
lowercase key `en`. -/
def cfgEn : Config :=
  { default_name := some "World"
  , languages := [("en", "Hello, \x7bname\x7d!")]
  , time_based_enabled := some true
  , time_based_templates := [("morning", "Good morning, \x7bname\x7d!")] }

/-- Engine freshly constructed over `cfgEn`. -/
def mEn : GreetingManager := GreetingManager.init cfgEn 0

/-- A configuration with time-based greetings disabled and no languages. -/
def cfgDisabled : Config :=
  { default_name := some "World"
  , languages := []
  , time_based_enabled := some false
  , time_based_templates := [] }

/-- Engine freshly constructed over `cfgDisabled`. -/
def mDisabled : GreetingManager := GreetingManager.init cfgDisabled 0

/-- Statistics snapshot taken from the fresh engine over `cfgEn`, before any
greeting has been produced. -/
def c9_snapshot : StatsSnapshot := get_statistics mEn 0

/-- The engine over `cfgEn` after one successful English multilang greeting,
performed after the snapshot above was taken. -/
def c9_after : GreetingManager := step mEn (Op.multilang 1 (some "Bob") "en")

theorem update_stats_standard (s : Stats) :
    update_stats s "standard_greetings" =
      { s with total_greetings := s.total_greetings + 1
             , standard_greetings := s.standard_greetings + 1 } := rfl

theorem update_stats_multilang (s : Stats) :
    update_stats s "multilang_greetings" =
      { s with total_greetings := s.total_greetings + 1
             , multilang_greetings := s.multilang_greetings + 1 } := rfl

theorem update_stats_time_based (s : Stats) :
    update_stats s "time_based_greetings" =
      { s with total_greetings := s.total_greetings + 1
             , time_based_greetings := s.time_based_greetings + 1 } := rfl

theorem update_stats_custom (s : Stats) :
    update_stats s "custom_messages" =
      { s with total_greetings := s.total_greetings + 1
             , custom_messages := s.custom_messages + 1 } := rfl

theorem bumps_update_stats (s : Stats) (k : String)
    (hk : k = "standard_greetings" ∨ k = "multilang_greetings" ∨
          k = "time_based_greetings" ∨ k = "custom_messages") :
    bumps s (update_stats s k) k := by
  rcases hk with h | h | h | h <;> subst h <;>
    exact ⟨rfl, rfl, rfl, rfl, rfl⟩

theorem dictLookup_eq_none {α : Type} (d : List (String × α)) (k : String)
    (h : k ∉ dictKeys d) : dictLookup d k = none := by
  induction d with
  | nil => rfl
  | cons p rest ih =>
    simp only [dictKeys, List.map_cons, List.mem_cons] at h
    push_neg at h
    simp only [dictLookup]
    rw [if_neg fun hpk => h.1 hpk.symm]
    exact ih (by simpa [dictKeys] using h.2)

theorem resolveName_idem (c : Config) (name : Option String) :
    resolveName c (some (resolveName c name)) = resolveName c name := by
  cases name with
  | none => simp [resolveName]
  | some n =>
    by_cases hn : n = ""
    · subst hn; simp [resolveName]
    · simp [resolveName, hn]

theorem get_multilang_eq_error {m : GreetingManager} {language : String}
    (h : dictLookup m.config.getLanguages language = none)
    (now : Nat) (name : Option String) :
    get_multilang_greeting m now name language =
      .error { language := language, available := dictKeys m.config.getLanguages } := by
  simp only [get_multilang_greeting, h]

theorem get_multilang_eq_ok {m : GreetingManager} {language template : String}
    (h : dictLookup m.config.getLanguages language = some template)
    (now : Nat) (name : Option String) :
    get_multilang_greeting m now name language =
      .ok (pyFormatName template (resolveName m.config name),
        appendHistory
          (update_language_stats
            { m with stats := update_stats m.stats "multilang_greetings" } language)
          now "multilang" (resolveName m.config name)
          (pyFormatName template (resolveName m.config name))) := by
  simp only [get_multilang_greeting, h]

theorem get_multilang_ok_inv {m : GreetingManager} {now : Nat} {name : Option String}
    {language g : String} {m2 : GreetingManager}
    (h : get_multilang_greeting m now name language = .ok (g, m2)) :
    ∃ template, dictLookup m.config.getLanguages language = some template ∧
      g = pyFormatName template (resolveName m.config name) ∧
      m2 = appendHistory
        (update_language_stats
          { m with stats := update_stats m.stats "multilang_greetings" } language)
        now "multilang" (resolveName m.config name) g := by
  cases hd : dictLookup m.config.getLanguages language with
  | none =>
    rw [get_multilang_eq_error hd now name] at h
    exact absurd h (by simp)
  | some template =>
    rw [get_multilang_eq_ok hd now name] at h
    injection h with h1
    injection h1 with hg hm2
    exact ⟨template, rfl, hg.symm, by rw [← hm2, ← hg]⟩

theorem heapGet_heapSet (h : Heap) (ref : Nat) (d : List (String × Nat))
    (hlt : ref < h.length) : heapGet (heapSet h ref d) ref = d := by
  induction h generalizing ref with
  | nil => simp at hlt
  | cons x xs ih =>
    cases ref with
    | zero => rfl
    | succ r => exact ih r (Nat.lt_of_succ_lt_succ hlt)

theorem statsInv_update_stats (s : Stats) (k : String)
    (hk : k = "standard_greetings" ∨ k = "multilang_greetings" ∨
          k = "time_based_greetings" ∨ k = "custom_messages")
    (h : statsInv s) : statsInv (update_stats s k) := by
  rcases hk with h1 | h1 | h1 | h1 <;> subst h1 <;>
    simp only [update_stats_standard, update_stats_multilang,
      update_stats_time_based, update_stats_custom, statsInv] at h ⊢ <;>
    omega

theorem statsInv_step (m : GreetingManager) (op : Op) (h : statsInv m.stats) :
    statsInv (step m op).stats := by
  cases op with
  | standard now name =>
    simpa [step, get_standard_greeting, appendHistory] using
      statsInv_update_stats m.stats "standard_greetings" (by left; rfl) h
  | multilang now name language =>
    show statsInv (match get_multilang_greeting m now name language with
      | .ok (_, m2) => m2 | .error _ => m).stats
    cases hd : dictLookup m.config.getLanguages language with
    | none => rw [get_multilang_eq_error hd now name]; exact h
    | some template =>
      rw [get_multilang_eq_ok hd now name]
      simpa [appendHistory, update_language_stats] using
        statsInv_update_stats m.stats "multilang_greetings" (by right; left; rfl) h
  | multilangDefault now name =>
    show statsInv (match get_multilang_greeting m now name "en" with
      | .ok (_, m2) => m2 | .error _ => m).stats
    cases hd : dictLookup m.config.getLanguages "en" with
    | none => rw [get_multilang_eq_error hd now name]; exact h
    | some template =>
      rw [get_multilang_eq_ok hd now name]
      simpa [appendHistory, update_language_stats] using
        statsInv_update_stats m.stats "multilang_greetings" (by right; left; rfl) h
  | timeBased now name =>
    by_cases he : m.config.getTimeBasedEnabled = false
    · simpa [step, get_time_based_greeting, he, get_standard_greeting, appendHistory] using
        statsInv_update_stats m.stats "standard_greetings" (by left; rfl) h
    · simpa [step, get_time_based_greeting, he, appendHistory] using
        statsInv_update_stats m.stats "time_based_greetings" (by right; right; left; rfl) h
  | custom now message =>
    simpa [step, process_custom_message, appendHistory] using
      statsInv_update_stats m.stats "custom_messages" (by right; right; right; rfl) h
  | statsQuery now => exact h
  | historyQuery => exact h
  | clearHistory => exact h
  | languagesQuery => exact h

theorem statsInv_run (ops : List Op) : ∀ m : GreetingManager,
    statsInv m.stats → statsInv (run m ops).stats := by
  induction ops with
  | nil => intro m h; exact h
  | cons op rest ih =>
    intro m h
    exact ih (step m op) (statsInv_step m op h)

/-- Claim C1: after any sequence of engine operations from a fresh engine the
statistics satisfy `total_greetings = standard_greetings + multilang_greetings
+ time_based_greetings + custom_messages` (in particular after every prefix,
including after a failed multilang greeting, which leaves the state
untouched), and every successful greeting-producing call increments
`total_greetings` by exactly one and exactly one per-kind counter by exactly
one (the disabled time-based call is attributed to the standard counter). -/
theorem c1_stats_invariant_and_increments :
    (∀ (cfg : Config) (t0 : Nat) (ops : List Op),
        statsInv (run (GreetingManager.init cfg t0) ops).stats) ∧
    (∀ (m : GreetingManager) (now : Nat) (name : Option String),
        bumps m.stats ((get_standard_greeting m now name).2).stats
          "standard_greetings") ∧
    (∀ (m : GreetingManager) (now : Nat) (name : Option String)
        (language g : String) (m2 : GreetingManager),
        get_multilang_greeting m now name language = .ok (g, m2) →
        bumps m.stats m2.stats "multilang_greetings") ∧
    (∀ (m : GreetingManager) (now : Nat) (name : Option String),
        m.config.getTimeBasedEnabled = true →
        bumps m.stats ((get_time_based_greeting m now name).2).stats
          "time_based_greetings") ∧
    (∀ (m : GreetingManager) (now : Nat) (name : Option String),
        m.config.getTimeBasedEnabled = false →
        bumps m.stats ((get_time_based_greeting m now name).2).stats
          "standard_greetings") ∧
    (∀ (m : GreetingManager) (now : Nat) (message : String),
        bumps m.stats ((process_custom_message m now message).2).stats
          "custom_messages") ∧
    (∀ (m : GreetingManager) (now : Nat) (name : Option String)
        (language : String) (e : UnsupportedLanguage),
        get_multilang_greeting m now name language = .error e →
        step m (Op.multilang now name language) = m) := by
  refine ⟨?_, ?_, ?_, ?_, ?_, ?_, ?_⟩
  · intro cfg t0 ops
    exact statsInv_run ops (GreetingManager.init cfg t0) rfl
  · intro m now name
    simpa [get_standard_greeting, appendHistory] using
      bumps_update_stats m.stats "standard_greetings" (by left; rfl)
  · intro m now name language g m2 h
    obtain ⟨template, hd, hg, hm2⟩ := get_multilang_ok_inv h
    subst hm2
    simpa [appendHistory, update_language_stats] using
      bumps_update_stats m.stats "multilang_greetings" (by right; left; rfl)
  · intro m now name he
    have : ¬ m.config.getTimeBasedEnabled = false := by simp [he]
    simpa [get_time_based_greeting, this, appendHistory] using
      bumps_update_stats m.stats "time_based_greetings" (by right; right; left; rfl)
  · intro m now name he
    simpa [get_time_based_greeting, he, get_standard_greeting, appendHistory] using
      bumps_update_stats m.stats "standard_greetings" (by left; rfl)
  · intro m now message
    simpa [process_custom_message, appendHistory] using
      bumps_update_stats m.stats "custom_messages" (by right; right; right; rfl)
  · intro m now name language e h
    show (match get_multilang_greeting m now name language with
      | .ok (_, m2) => m2 | .error _ => m) = m
    rw [h]

/-- Closed instance of claim C1: the invariant after a concrete mixed
sequence of calls (one of them a failing multilang call), and the exact
increment bookkeeping of a concrete successful multilang call, with that
call's success hypothesis discharged by evaluation. -/
theorem c1_witness :
    statsInv (run (GreetingManager.init cfgEn 0)
      [Op.standard 1 (some "Alice"), Op.multilang 2 (some "Bob") "xx",
       Op.multilang 3 (some "Bob") "en", Op.custom 4 "  hi  ",
       Op.timeBased 8 none, Op.clearHistory]).stats ∧
    bumps mEn.stats (step mEn (Op.multilang 2 (some "Bob") "en")).stats
      "multilang_greetings" := by
  constructor
  · exact c1_stats_invariant_and_increments.1 cfgEn 0
      [Op.standard 1 (some "Alice"), Op.multilang 2 (some "Bob") "xx",
       Op.multilang 3 (some "Bob") "en", Op.custom 4 "  hi  ",
       Op.timeBased 8 none, Op.clearHistory]
  · exact c1_stats_invariant_and_increments.2.2.1 mEn 2 (some "Bob") "en"
      "Hello, Bob!" (step mEn (Op.multilang 2 (some "Bob") "en")) rfl

/-- Claim C2, counterexample to the claimed sortedness: over a configuration
whose `greetings.languages` keys appear in the order `fr`, `en`, the failing
call's error carries the available codes in exactly that insertion order,
which is not sorted. -/
theorem c2_available_codes_not_sorted :
    get_multilang_greeting mUnsorted 0 (some "Alice") "xx" =
      .error { language := "xx", available := ["fr", "en"] } ∧
    sortedStringsB ["fr", "en"] = false := by
  exact ⟨rfl, by decide⟩

/-- Claim C2 as amended: for every name and every language code absent from
the keys of the configured `greetings.languages` mapping, the multilang call
fails with the unsupported-language error carrying the requested code and the
list of available codes in the mapping's insertion order (stable, but not
necessarily sorted), and the call leaves the engine state — all statistics
counters, the heap and the history — exactly as before. -/
theorem c2_unsupported_language_no_mutation (m : GreetingManager) (now : Nat)
    (name : Option String) (language : String)
    (h : language ∉ dictKeys m.config.getLanguages) :
    get_multilang_greeting m now name language =
      .error { language := language, available := dictKeys m.config.getLanguages } ∧
    step m (Op.multilang now name language) = m := by
  have hd : dictLookup m.config.getLanguages language = none :=
    dictLookup_eq_none _ _ h
  refine ⟨get_multilang_eq_error hd now name, ?_⟩
  show (match get_multilang_greeting m now name language with
    | .ok (_, m2) => m2 | .error _ => m) = m
  rw [get_multilang_eq_error hd now name]

/-- Closed instance of claim C2: the code `xx` is not among the configured
codes, the failing call reports it with the available codes, and the engine
state is bit-for-bit unchanged. -/
theorem c2_witness :
    "xx" ∉ dictKeys (Config.getLanguages mUnsorted.config) ∧
    (get_multilang_greeting mUnsorted 5 (some "Alice") "xx" =
        .error { language := "xx"
               , available := dictKeys (Config.getLanguages mUnsorted.config) } ∧
      step mUnsorted (Op.multilang 5 (some "Alice") "xx") = mUnsorted) :=
  ⟨by decide, c2_unsupported_language_no_mutation mUnsorted 5 (some "Alice") "xx" (by decide)⟩

/-- Claim C3 (history modelled from the spec, its implementation being absent
from src): a fresh engine has an empty history; every successful
greeting-producing call appends exactly one entry at the end recording the
call's timestamp, kind, resolved name and rendered text (so after N
successful calls the history has length N in call order); and
`clear_history` empties the history without changing the statistics. -/
theorem c3_history_lifecycle :
    (∀ (cfg : Config) (t0 : Nat),
        get_greeting_history (GreetingManager.init cfg t0) = []) ∧
    (∀ (m : GreetingManager) (now : Nat) (name : Option String),
        get_greeting_history (get_standard_greeting m now name).2 =
          get_greeting_history m ++
            [{ timestamp := now, type := "standard"
             , name := resolveName m.config name
             , greeting := "Hello, " ++ resolveName m.config name ++ "!" }]) ∧
    (∀ (m : GreetingManager) (now : Nat) (name : Option String)
        (language g : String) (m2 : GreetingManager),
        get_multilang_greeting m now name language = .ok (g, m2) →
        get_greeting_history m2 =
          get_greeting_history m ++
            [{ timestamp := now, type := "multilang"
             , name := resolveName m.config name, greeting := g }]) ∧
    (∀ (m : GreetingManager) (now : Nat) (name : Option String),
        m.config.getTimeBasedEnabled = true →
        get_greeting_history (get_time_based_greeting m now name).2 =
          get_greeting_history m ++
            [{ timestamp := now, type := "time_based"
             , name := resolveName m.config name
             , greeting := (get_time_based_greeting m now name).1 }]) ∧
    (∀ (m : GreetingManager) (now : Nat) (name : Option String),
        m.config.getTimeBasedEnabled = false →
        get_greeting_history (get_time_based_greeting m now name).2 =
          get_greeting_history m ++
            [{ timestamp := now, type := "standard"
             , name := resolveName m.config name
             , greeting := "Hello, " ++ resolveName m.config name ++ "!" }]) ∧
    (∀ (m : GreetingManager) (now : Nat) (message : String),
        get_greeting_history (process_custom_message m now message).2 =
          get_greeting_history m ++
            [{ timestamp := now, type := "custom", name := ""
             , greeting := "✨ " ++ pyStrip message ++ " ✨" }]) ∧
    (∀ m : GreetingManager,
        get_greeting_history (clear_history m) = [] ∧
        (clear_history m).stats = m.stats) := by
  refine ⟨fun cfg t0 => rfl, ?_, ?_, ?_, ?_, fun m now message => rfl, fun m => ⟨rfl, rfl⟩⟩
  · intro m now name
    rfl
  · intro m now name language g m2 h
    obtain ⟨template, hd, hg, hm2⟩ := get_multilang_ok_inv h
    subst hm2
    rfl
  · intro m now name he
    have : ¬ m.config.getTimeBasedEnabled = false := by simp [he]
    simp [get_time_based_greeting, this, get_greeting_history, appendHistory]
  · intro m now name he
    simp [get_time_based_greeting, he, get_standard_greeting, get_greeting_history,
      appendHistory, resolveName_idem]

/-- Closed instance of claim C3: over a concrete configuration the fresh
history is empty, a successful multilang call (success discharged by
evaluation) and an enabled time-based call each append their entry, and
clearing resets the history while keeping the statistics. -/
theorem c3_witness :
    (get_multilang_greeting mEn 2 (some "Bob") "en" =
        .ok ("Hello, Bob!", step mEn (Op.multilang 2 (some "Bob") "en")) ∧
      Config.getTimeBasedEnabled mEn.config = true) ∧
    (get_greeting_history (GreetingManager.init cfgEn 0) = [] ∧
      get_greeting_history (step mEn (Op.multilang 2 (some "Bob") "en")) =
        get_greeting_history mEn ++
          [{ timestamp := 2, type := "multilang"
           , name := resolveName mEn.config (some "Bob")
           , greeting := "Hello, Bob!" }] ∧
      get_greeting_history (get_time_based_greeting mEn 8 (some "Z")).2 =
        get_greeting_history mEn ++
          [{ timestamp := 8, type := "time_based"
           , name := resolveName mEn.config (some "Z")
           , greeting := (get_time_based_greeting mEn 8 (some "Z")).1 }] ∧
      (get_greeting_history (clear_history mEn) = [] ∧
        (clear_history mEn).stats = mEn.stats)) :=
  ⟨⟨rfl, rfl⟩,
    c3_history_lifecycle.1 cfgEn 0,
    c3_history_lifecycle.2.2.1 mEn 2 (some "Bob") "en" "Hello, Bob!"
      (step mEn (Op.multilang 2 (some "Bob") "en")) rfl,
    c3_history_lifecycle.2.2.2.1 mEn 8 (some "Z") rfl,
    c3_history_lifecycle.2.2.2.2.2.2 mEn⟩

/-- Claim C4: the time slot is derived from the local hour by the half-open
intervals morning [5,12), afternoon [12,17), evening [17,22) and night
[22,24) together with [0,5); the spec's eight boundary probes select the
documented keys; with time-based greetings enabled the returned greeting is
the template looked up at `greetings.time_based.{slot}` rendered with the
resolved name; and a missing template key falls back to the default
`Hello, {name}!`. -/
theorem c4_time_slot_derivation :
    (∀ h : Nat, h < 24 →
      ((5 ≤ h ∧ h < 12) → time_key_of_hour h = "morning") ∧
      ((12 ≤ h ∧ h < 17) → time_key_of_hour h = "afternoon") ∧
      ((17 ≤ h ∧ h < 22) → time_key_of_hour h = "evening") ∧
      ((22 ≤ h ∨ h < 5) → time_key_of_hour h = "night")) ∧
    (time_key_of_hour 4 = "night" ∧ time_key_of_hour 5 = "morning" ∧
      time_key_of_hour 11 = "morning" ∧ time_key_of_hour 12 = "afternoon" ∧
      time_key_of_hour 16 = "afternoon" ∧ time_key_of_hour 17 = "evening" ∧
      time_key_of_hour 21 = "evening" ∧ time_key_of_hour 22 = "night") ∧
    (∀ (m : GreetingManager) (now : Nat) (name : Option String),
        m.config.getTimeBasedEnabled = true →
        (get_time_based_greeting m now name).1 =
          pyFormatName (m.config.getTimeTemplate (time_key_of_hour (now % 24)))
            (resolveName m.config name)) ∧
    (∀ (c : Config) (k : String), dictLookup c.time_based_templates k = none →
        c.getTimeTemplate k = "Hello, \x7bname\x7d!") := by
  refine ⟨by decide, by decide, ?_, ?_⟩
  · intro m now name he
    have : ¬ m.config.getTimeBasedEnabled = false := by simp [he]
    simp [get_time_based_greeting, this]
  · intro c k h
    simp [Config.getTimeTemplate, h]

/-- Closed instance of claim C4: the slot of hour 8, the rendered greeting of
an enabled engine at tick 8, and the default template of a configuration with
no night template, each obtained from the theorem with its hypotheses
discharged by evaluation. -/
theorem c4_witness :
    ((5 ≤ 8 ∧ 8 < 12) ∧ Config.getTimeBasedEnabled mEn.config = true ∧
      dictLookup cfgEn.time_based_templates "night" = none) ∧
    (time_key_of_hour 8 = "morning" ∧
      (get_time_based_greeting mEn 8 (some "Z")).1 =
        pyFormatName (Config.getTimeTemplate mEn.config (time_key_of_hour (8 % 24)))
          (resolveName mEn.config (some "Z")) ∧
      Config.getTimeTemplate cfgEn "night" = "Hello, \x7bname\x7d!") :=
  ⟨⟨by decide, rfl, rfl⟩,
    ((c4_time_slot_derivation.1 8 (by decide)).1 (by decide)),
    c4_time_slot_derivation.2.2.1 mEn 8 (some "Z") rfl,
    c4_time_slot_derivation.2.2.2 cfgEn "night" rfl⟩

/-- Claim C5: when `greetings.time_based.enabled` is configured false the
time-based call returns exactly the pair (greeting, updated state) that the
standard call returns — same rendered text, same counters (standard, not
time-based), same history entry of kind standard — and its statistics effect
is the standard-kind increment. -/
theorem c5_disabled_passthrough (m : GreetingManager) (now : Nat)
    (name : Option String) (h : m.config.getTimeBasedEnabled = false) :
    get_time_based_greeting m now name = get_standard_greeting m now name ∧
    bumps m.stats ((get_time_based_greeting m now name).2).stats
      "standard_greetings" := by
  constructor
  · simp [get_time_based_greeting, h, get_standard_greeting, resolveName_idem]
  · simp [get_time_based_greeting, h, get_standard_greeting, appendHistory]
    simpa using bumps_update_stats m.stats "standard_greetings" (by left; rfl)

/-- Closed instance of claim C5 over the configuration with time-based
greetings disabled. -/
theorem c5_witness :
    Config.getTimeBasedEnabled mDisabled.config = false ∧
    (get_time_based_greeting mDisabled 7 (some "Alice") =
        get_standard_greeting mDisabled 7 (some "Alice") ∧
      bumps mDisabled.stats
        ((get_time_based_greeting mDisabled 7 (some "Alice")).2).stats
        "standard_greetings") :=
  ⟨rfl, c5_disabled_passthrough mDisabled 7 (some "Alice") rfl⟩

/-- Claim C6, counterexample to the claimed case normalization: over a
configuration whose only language key is the lowercase `en`, the code `EN` —
which differs from that key only in letter case and lowercases to it — is
rejected with the unsupported-language error instead of succeeding, because
the engine matches the code verbatim (lowercasing happens in the CLI layer,
not in the engine). -/
theorem c6_case_not_normalized :
    pyToLower "EN" = "en" ∧
    dictLookup (Config.getLanguages mEn.config) "en" = some "Hello, \x7bname\x7d!" ∧
    get_multilang_greeting mEn 0 (some "Bob") "EN" =
      .error { language := "EN", available := ["en"] } :=
  ⟨by decide, rfl, rfl⟩

/-- Claim C6 as amended: the language code is matched exactly
(case-sensitively) against the keys of the configured `greetings.languages`
mapping — a configured key makes the call succeed with that key's template,
and any other code, including one differing from a configured key only in
letter case, fails with the unsupported-language error. -/
theorem c6_exact_case_sensitive_match (m : GreetingManager) (now : Nat)
    (name : Option String) (language : String) :
    (∀ template : String,
        dictLookup m.config.getLanguages language = some template →
        ∃ m2 : GreetingManager, get_multilang_greeting m now name language =
          .ok (pyFormatName template (resolveName m.config name), m2)) ∧
    (dictLookup m.config.getLanguages language = none →
        get_multilang_greeting m now name language =
          .error { language := language
                 , available := dictKeys m.config.getLanguages }) := by
  constructor
  · intro template h
    exact ⟨_, get_multilang_eq_ok h now name⟩
  · intro h
    exact get_multilang_eq_error h now name

/-- Closed instance of claim C6 as amended: over the lowercase-`en`
configuration the exact code `en` succeeds with the English template, and the
case-variant `EN` fails, both hypotheses discharged by evaluation. -/
theorem c6_witness :
    (dictLookup (Config.getLanguages mEn.config) "en" =
        some "Hello, \x7bname\x7d!" ∧
      dictLookup (Config.getLanguages mEn.config) "EN" = none) ∧
    ((∃ m2 : GreetingManager, get_multilang_greeting mEn 2 (some "Bob") "en" =
        .ok (pyFormatName "Hello, \x7bname\x7d!" (resolveName mEn.config (some "Bob")), m2)) ∧
      get_multilang_greeting mEn 2 (some "Bob") "EN" =
        .error { language := "EN", available := dictKeys (Config.getLanguages mEn.config) }) :=
  ⟨⟨rfl, rfl⟩,
    (c6_exact_case_sensitive_match mEn 2 (some "Bob") "en").1
      "Hello, \x7bname\x7d!" rfl,
    (c6_exact_case_sensitive_match mEn 2 (some "Bob") "EN").2 rfl⟩

/-- Claim C7: for every message whose stripped form is non-empty, the custom
call returns the message with leading and trailing whitespace removed and the
sparkle marker on both sides, and increments `total_greetings` and
`custom_messages` by exactly one each (and no other counter). -/
theorem c7_custom_message (m : GreetingManager) (now : Nat) (message : String)
    (_h : pyStrip message ≠ "") :
    (process_custom_message m now message).1 =
      "✨ " ++ pyStrip message ++ " ✨" ∧
    bumps m.stats ((process_custom_message m now message).2).stats
      "custom_messages" := by
  refine ⟨rfl, ?_⟩
  simpa [process_custom_message, appendHistory] using
    bumps_update_stats m.stats "custom_messages" (by right; right; right; rfl)

/-- Closed instance of claim C7: the spec's example message, stripped and
decorated, with its non-emptiness hypothesis discharged by evaluation. -/
theorem c7_witness :
    pyStrip "  Have a great day!  " ≠ "" ∧
    ((process_custom_message mEn 3 "  Have a great day!  ").1 =
        "✨ " ++ pyStrip "  Have a great day!  " ++ " ✨" ∧
      bumps mEn.stats
        ((process_custom_message mEn 3 "  Have a great day!  ").2).stats
        "custom_messages") :=
  ⟨by decide, c7_custom_message mEn 3 "  Have a great day!  " (by decide)⟩

/-- Claim C8: the standard greeting renders `Hello, {name}!`; an absent or
empty name is replaced by the configured `greetings.default_name`, which
falls back to the literal `World` when not configured; a non-empty name is
used as given. -/
theorem c8_standard_greeting (m : GreetingManager) (now : Nat) (name : String)
    (h : name ≠ "") :
    (get_standard_greeting m now none).1 =
      "Hello, " ++ m.config.getDefaultName ++ "!" ∧
    (get_standard_greeting m now (some "")).1 =
      "Hello, " ++ m.config.getDefaultName ++ "!" ∧
    (get_standard_greeting m now (some name)).1 = "Hello, " ++ name ++ "!" ∧
    (m.config.default_name = none → m.config.getDefaultName = "World") := by
  refine ⟨rfl, rfl, ?_, ?_⟩
  · simp [get_standard_greeting, resolveName, h]
  · intro hd
    simp [Config.getDefaultName, hd]

/-- Closed instance of claim C8: `Alice` is greeted verbatim and the default
name of the concrete configuration is used for the empty name, hypotheses
discharged by evaluation. -/
theorem c8_witness :
    ("Alice" : String) ≠ "" ∧
    ((get_standard_greeting mEn 1 none).1 =
        "Hello, " ++ Config.getDefaultName mEn.config ++ "!" ∧
      (get_standard_greeting mEn 1 (some "")).1 =
        "Hello, " ++ Config.getDefaultName mEn.config ++ "!" ∧
      (get_standard_greeting mEn 1 (some "Alice")).1 = "Hello, " ++ "Alice" ++ "!" ∧
      (mEn.config.default_name = none → Config.getDefaultName mEn.config = "World")) :=
  ⟨by decide, c8_standard_greeting mEn 1 "Alice" (by decide)⟩

/-- Claim C9, counterexample to the claimed deep snapshot: `dict.copy()` is
shallow, so the `language_usage` entry of a returned statistics record is a
live reference to the engine's internal dictionary.  A snapshot taken from
the fresh engine shows an empty mapping; after one later successful multilang
call the very same snapshot shows the mutated mapping, so the snapshot is not
a copy of the `language_usage` contents. -/
theorem c9_snapshot_language_usage_aliased :
    StatsSnapshot.read_language_usage c9_snapshot mEn = [] ∧
    StatsSnapshot.read_language_usage c9_snapshot c9_after = [("en", 1)] ∧
    StatsSnapshot.read_language_usage c9_snapshot c9_after ≠
      StatsSnapshot.read_language_usage c9_snapshot mEn :=
  ⟨rfl, rfl, by decide⟩

/-- Claim C9 as amended: `get_statistics` returns the scalar counters and
`session_start` by value, plus a `session_duration` derived from the clock at
the moment of the call; the call leaves the engine state unchanged, and two
calls with no intervening operation return equal counters; however the
`language_usage` entry of the returned record is the shallow-copied reference
to the engine's internal mapping (reading it dereferences the engine's
current heap), not an independent copy. -/
theorem c9_statistics_snapshot (m : GreetingManager) (t1 t2 : Nat) :
    step m (Op.statsQuery t1) = m ∧
    (get_statistics m t1).total_greetings = m.stats.total_greetings ∧
    (get_statistics m t1).standard_greetings = m.stats.standard_greetings ∧
    (get_statistics m t1).multilang_greetings = m.stats.multilang_greetings ∧
    (get_statistics m t1).time_based_greetings = m.stats.time_based_greetings ∧
    (get_statistics m t1).custom_messages = m.stats.custom_messages ∧
    (get_statistics m t1).session_start = m.stats.session_start ∧
    (get_statistics m t1).session_duration_minutes = t1 - m.stats.session_start ∧
    (get_statistics m t1).total_greetings = (get_statistics m t2).total_greetings ∧
    (get_statistics m t1).standard_greetings = (get_statistics m t2).standard_greetings ∧
    (get_statistics m t1).multilang_greetings = (get_statistics m t2).multilang_greetings ∧
    (get_statistics m t1).time_based_greetings = (get_statistics m t2).time_based_greetings ∧
    (get_statistics m t1).custom_messages = (get_statistics m t2).custom_messages ∧
    (get_statistics m t1).language_usage = m.stats.language_usage ∧
    StatsSnapshot.read_language_usage (get_statistics m t1) m =
      heapGet m.heap m.stats.language_usage :=
  ⟨rfl, rfl, rfl, rfl, rfl, rfl, rfl, rfl, rfl, rfl, rfl, rfl, rfl, rfl, rfl⟩

/-- Claim C10: calling `get_multilang_greeting` with no language argument
uses the declared default `'en'`: when `en` is a configured key the call
succeeds with the English template, increments the multilang counters and
counts the call under `language_usage['en']` in the engine's dictionary; when
`en` is not configured the call fails with the unsupported-language error
carrying `en` and the available codes. -/
theorem c10_default_language_en (m : GreetingManager) (now : Nat)
    (name : Option String) :
    (∀ template : String,
        dictLookup m.config.getLanguages "en" = some template →
        m.stats.language_usage < m.heap.length →
        ∃ m2 : GreetingManager,
          get_multilang_greeting_default m now name =
            .ok (pyFormatName template (resolveName m.config name), m2) ∧
          bumps m.stats m2.stats "multilang_greetings" ∧
          heapGet m2.heap m2.stats.language_usage =
            bumpLang (heapGet m.heap m.stats.language_usage) "en") ∧
    (dictLookup m.config.getLanguages "en" = none →
        get_multilang_greeting_default m now name =
          .error { language := "en", available := dictKeys m.config.getLanguages }) := by
  constructor
  · intro template h hwf
    refine ⟨_, get_multilang_eq_ok h now name, ?_, ?_⟩
    · simpa [appendHistory, update_language_stats] using
        bumps_update_stats m.stats "multilang_greetings" (by right; left; rfl)
    · simpa [appendHistory, update_language_stats] using
        heapGet_heapSet m.heap m.stats.language_usage
          (bumpLang (heapGet m.heap m.stats.language_usage) "en") hwf
  · intro h
    exact get_multilang_eq_error h now name

/-- Closed instance of claim C10: over the `en` configuration the
language-less call succeeds with the English template and records the usage
under `en`; over the language-less configuration it fails with the
unsupported-language error; all hypotheses discharged by evaluation. -/
theorem c10_witness :
    (dictLookup (Config.getLanguages mEn.config) "en" =
        some "Hello, \x7bname\x7d!" ∧
      mEn.stats.language_usage < mEn.heap.length ∧
      dictLookup (Config.getLanguages mDisabled.config) "en" = none) ∧
    ((∃ m2 : GreetingManager,
        get_multilang_greeting_default mEn 2 (some "Bob") =
          .ok (pyFormatName "Hello, \x7bname\x7d!" (resolveName mEn.config (some "Bob")), m2) ∧
        bumps mEn.stats m2.stats "multilang_greetings" ∧
        heapGet m2.heap m2.stats.language_usage =
          bumpLang (heapGet mEn.heap mEn.stats.language_usage) "en") ∧
      get_multilang_greeting_default mDisabled 2 (some "Bob") =
        .error { language := "en"
               , available := dictKeys (Config.getLanguages mDisabled.config) }) :=
  ⟨⟨rfl, by decide, rfl⟩,
    (c10_default_language_en mEn 2 (some "Bob")).1
      "Hello, \x7bname\x7d!" rfl (by decide),
    (c10_default_language_en mDisabled 2 (some "Bob")).2 rfl⟩

end HelloWorld
